import Mathlib

/-!
Shallow embedding of the request-dispatch core of `src/background.js`
(browser extension background service worker): telemetry aggregation
(`trackCall`, `getTelemetry`), request dispatch (`handleMcpRequest`),
health probing (`pingEndpoint`) and the `chrome.runtime.onMessage`
listener.

JavaScript values that matter to the control flow are modelled
explicitly: `undefined` / non-string values as `JsVal`, string
truthiness (`!url` is true for `undefined` and `""`), `x || d`
defaulting, and exceptions as `Except` (an async function that throws
returns a rejected promise).  The network is a parameter: a
`FetchOutcome` describes how the single `fetch` of a dispatch resolves,
so the dispatch functions are pure functions of message, settings,
fetch outcome and telemetry state.
-/

namespace Sidehelp

/-- A JavaScript value as far as the core inspects one: a string,
`undefined`, or some other non-string value (number, object, ...). -/
inductive JsVal where
  | str (s : String)
  | undefined
  | other
  deriving DecidableEq, Repr

/-- Truthiness of an optional string slot (`undefined` and `""` are
falsy, every other string truthy) — the JS `!url` / `if (token)`
tests on settings fields. -/
def truthy : Option String → Bool
  | none => false
  | some s => !s.isEmpty

/-- JS `x || default` on an optional numeric setting: `undefined` and
`0` fall back to the default. -/
def jsOrNat (x : Option Nat) (d : Nat) : Nat :=
  match x with
  | none => d
  | some t => if t = 0 then d else t

/-- Does `needle` occur as a contiguous run of `haystack`? -/
def hasInfix (needle : List Char) : List Char → Bool
  | [] => needle.isPrefixOf ([] : List Char)
  | c :: cs => needle.isPrefixOf (c :: cs) || hasInfix needle cs

/-- JS `haystack.includes(needle)` on strings. -/
def strIncludes (haystack needle : String) : Bool :=
  hasInfix needle.toList haystack.toList

/-- JS `s.startsWith(p)`. -/
def strStartsWith (s p : String) : Bool :=
  p.data.isPrefixOf s.data

/-- JS `s.substring(n)`: drop the first `n` units. -/
def strDrop (s : String) (n : Nat) : String :=
  String.mk (s.data.drop n)

/-- A thrown JS error as the dispatch code observes it: `err.message`
(possibly absent) and `String(err)`. -/
structure JsError where
  message : Option String
  str : String
  deriving DecidableEq, Repr

/-- JS `err.message || String(err)` (`background.js` lines 168, 223). -/
def errString (e : JsError) : String :=
  match e.message with
  | some m => if m.isEmpty then e.str else m
  | none => e.str

/-! ## Telemetry (`background.js` lines 12–50) -/

/-- `MAX_LATENCY_SAMPLES` (line 14). -/
def MAX_LATENCY_SAMPLES : Nat := 100

/-- One entry of `telemetry.calls`. -/
structure EndpointStats where
  total : Nat
  success : Nat
  failed : Nat
  deriving DecidableEq, Repr

/-- The global `telemetry` object: two insertion-ordered string-keyed
objects, modelled as association lists. -/
structure Telemetry where
  calls : List (String × EndpointStats)
  latencies : List (String × List Nat)
  deriving DecidableEq, Repr

/-- The initial telemetry state (both objects empty, line 16). -/
def emptyTelemetry : Telemetry := ⟨[], []⟩

/-- Update the value at key `k` of a JS object modelled as an
association list, leaving other keys alone. -/
def updateAssoc {α : Type} (l : List (String × α)) (k : String) (f : α → α) :
    List (String × α) :=
  l.map (fun p => if p.1 = k then (p.1, f p.2) else p)

/-- Counter bump of one `trackCall` (lines 26–31). -/
def bumpStats (success : Bool) (s : EndpointStats) : EndpointStats :=
  { total := s.total + 1
    success := if success then s.success + 1 else s.success
    failed := if success then s.failed else s.failed + 1 }

/-- Latency-window push of one `trackCall`: `push` then `shift` once
the length exceeds `MAX_LATENCY_SAMPLES` (lines 32–36). -/
def pushLatency (d : Nat) (w : List Nat) : List Nat :=
  let w := w ++ [d]
  if w.length > MAX_LATENCY_SAMPLES then w.tail else w

/-- `trackCall(endpoint, duration_ms, success)` (lines 21–37): create
the endpoint's entries on first call, bump counters, append to the
latency window with FIFO eviction. -/
def trackCall (tel : Telemetry) (endpoint : String) (duration_ms : Nat)
    (success : Bool) : Telemetry :=
  let tel :=
    if (tel.calls.lookup endpoint).isSome then tel
    else { calls := tel.calls ++ [(endpoint, ⟨0, 0, 0⟩)]
           latencies := tel.latencies ++ [(endpoint, [])] }
  { calls := updateAssoc tel.calls endpoint (bumpStats success)
    latencies := updateAssoc tel.latencies endpoint (pushLatency duration_ms) }

/-- One entry of the `getTelemetry()` result. -/
structure EndpointSnapshot where
  total : Nat
  success : Nat
  failed : Nat
  avg_latency_ms : Nat
  deriving DecidableEq, Repr

/-- JS `Math.round(sum / len)` for natural `sum` and positive `len`:
round half up, i.e. `⌊sum/len + 1/2⌋`. -/
def jsRound (sum len : Nat) : Nat := (2 * sum + len) / (2 * len)

/-- `getTelemetry()` (lines 39–50): build a fresh stats object from the
counters and the mean of the current latency window (`Math.round`ed,
`0` when the window is empty); reads but never writes `telemetry`. -/
def getTelemetry (tel : Telemetry) : List (String × EndpointSnapshot) :=
  tel.calls.map (fun p =>
    let lats := (tel.latencies.lookup p.1).getD []
    let avg := if lats.length > 0 then jsRound lats.sum lats.length else 0
    (p.1, ⟨p.2.total, p.2.success, p.2.failed, avg⟩))

/-- Fold a sequence of `(endpoint, duration, success)` recordings over
the initial telemetry state. -/
def runCalls (evs : List (String × Nat × Bool)) : Telemetry :=
  evs.foldl (fun t ev => trackCall t ev.1 ev.2.1 ev.2.2) emptyTelemetry

/-- Record a list of `(duration, success)` events for a single
endpoint, starting from the initial telemetry state. -/
def recordAll (endpoint : String) (evs : List (Nat × Bool)) : Telemetry :=
  evs.foldl (fun t ev => trackCall t endpoint ev.1 ev.2) emptyTelemetry

/-! ## Settings and profiles -/

/-- A stored profile (`options.js` writes `{name, url, auth_token,
default_preamble, default_temperature}`); optional fields may be
absent (`none`) or present. -/
structure Profile where
  name : String
  url : Option String
  auth_token : Option String
  default_preamble : Option String
  default_temperature : Option ℚ
  deriving DecidableEq, Repr

/-- The settings keys `handleMcpRequest` / `pingEndpoint` read from
`chrome.storage.sync`; any key may be absent. -/
structure Settings where
  localEndpoint : Option String
  remoteEndpoint : Option String
  localAuthToken : Option String
  remoteAuthToken : Option String
  requestTimeoutMs : Option Nat
  profiles : Option (List Profile)
  deriving DecidableEq, Repr

/-! ## Dispatch (`background.js` lines 79–170) -/

/-- The incoming `mcpRequest` message's fields as destructured on
line 81; `context` is an opaque object (kept as an optional tag, only
its truthiness and identity matter to the core). -/
structure McpMessage where
  endpoint : JsVal
  prompt : JsVal
  context : Option String
  deriving DecidableEq, Repr

/-- The `data` field of a response envelope: `null`, raw text, or a
parsed-JSON value (kept abstract as the string it was parsed from). -/
inductive RespData where
  | null
  | text (s : String)
  | json (j : String)
  deriving DecidableEq, Repr

/-- The standard response envelope (`background.js` lines 7–10). -/
structure Envelope where
  ok : Bool
  status : Nat
  endpoint : JsVal
  duration_ms : Nat
  data : RespData
  error : Option String
  deriving DecidableEq, Repr

deriving instance DecidableEq for Except

/-- How the single `fetch` of a dispatch resolves: the abort timer
fires first, the transport fails, or an HTTP response arrives.  For a
response, `jsonBody` is how `res.json()` would resolve (`.error` when
the declared-JSON body fails to parse) and `textBody` how `res.text()`
would. -/
inductive FetchOutcome where
  | timeout
  | transportError (err : JsError)
  | response (status : Nat) (contentType : Option String)
      (jsonBody : Except JsError String) (textBody : String)
  deriving DecidableEq, Repr

/-- `Response.ok` of the Fetch API: status in the range 200–299. -/
def resOk (status : Nat) : Bool :=
  decide (200 ≤ status ∧ status ≤ 299)

/-- The JSON body `handleMcpRequest` builds (lines 117–122): `context`
and `preamble` are included iff truthy, `temperature` iff not
`undefined`. -/
structure RequestBody where
  prompt : String
  context : Option String
  preamble : Option String
  temperature : Option ℚ
  deriving DecidableEq, Repr

/-- The one network call of a dispatch, as issued: target URL, the
bearer token attached iff truthy (lines 132–134), body, and the abort
timer's delay. -/
structure FetchCall where
  url : String
  token : Option String
  body : RequestBody
  timeoutMs : Nat
  deriving DecidableEq, Repr

/-- What a resolved `handleMcpRequest` promise carries, together with
the observable effects of the run: the telemetry state afterwards,
whether `getSettings` was awaited, and the fetch that was issued (if
any). -/
structure DispatchResult where
  envelope : Envelope
  tel : Telemetry
  settingsRead : Bool
  fetched : Option FetchCall
  deriving DecidableEq, Repr

/-- The pre-flight prompt check (line 83):
`!prompt || typeof prompt !== "string"`. -/
def promptMissing : JsVal → Bool
  | .str s => s.isEmpty
  | _ => true

/-- Normalize an optional string by JS truthiness: `some s` survives
only when non-empty (used for the `token` guard and the
`...(preamble && { preamble })` spread). -/
def truthyOpt (x : Option String) : Option String :=
  x.bind (fun s => if s.isEmpty then none else some s)

/-- The `try { ... } catch (err) { ... }` of lines 136–169, after the
URL is known: issue the fetch, decode the body by content type, track
the call and build the envelope; a body-decode rejection lands in the
`catch` like any other error. -/
def settleFetch (fo : FetchOutcome) (endpoint : String) (timeoutMs : Nat)
    (tel : Telemetry) (elapsed : Nat) : Envelope × Telemetry :=
  match fo with
  | .timeout =>
      (⟨false, 0, .str endpoint, elapsed, .null,
        some s!"Request timed out after {timeoutMs}ms"⟩,
       trackCall tel endpoint elapsed false)
  | .transportError e =>
      (⟨false, 0, .str endpoint, elapsed, .null, some (errString e)⟩,
       trackCall tel endpoint elapsed false)
  | .response status contentType jsonBody textBody =>
      let decoded : Except JsError RespData :=
        if strIncludes (contentType.getD "") "application/json" then
          jsonBody.map RespData.json
        else .ok (.text textBody)
      match decoded with
      | .ok data =>
          let ok := resOk status
          (⟨ok, status, .str endpoint, elapsed, data,
            if ok then none else some s!"HTTP {status}"⟩,
           trackCall tel endpoint elapsed ok)
      | .error e =>
          (⟨false, 0, .str endpoint, elapsed, .null, some (errString e)⟩,
           trackCall tel endpoint elapsed false)

/-- Endpoint resolution as both `handleMcpRequest` (lines 93–110) and
`pingEndpoint` (lines 181–193) perform it: a `profile:`-prefixed
endpoint is looked up by exact name in the profile list (`substring(8)`
strips the tag; `find` returns the first match) and yields the
profile's `url`/`auth_token`/`default_preamble`/`default_temperature`;
any other endpoint string reads the legacy settings fields (`"local"`
maps to the local pair, everything else to the remote pair).
`.error name` is the early `Profile '<name>' not found` return. -/
def resolveRef (endpoint : String) (settings : Settings) :
    Except String (Option String × Option String × Option String × Option ℚ) :=
  if strStartsWith endpoint "profile:" then
    let profileName := strDrop endpoint 8
    let profiles := settings.profiles.getD []
    match profiles.find? (fun p => p.name == profileName) with
    | none => .error profileName
    | some profile =>
        .ok (profile.url, profile.auth_token,
             profile.default_preamble, profile.default_temperature)
  else
    .ok ((if endpoint == "local" then settings.localEndpoint
          else settings.remoteEndpoint),
         (if endpoint == "local" then settings.localAuthToken
          else settings.remoteAuthToken),
         none, none)

/-- `handleMcpRequest(message)` (lines 79–170) as a pure function of
the message, the settings snapshot `getSettings` resolves to, the
fetch outcome and the telemetry state.  `elapsed` stands for the
`Date.now() - startTime` difference observed when the call settles.
A thrown exception (the `endpoint.startsWith` TypeError on a
non-string endpoint) rejects the promise: `.error` carries
`String(err)`. -/
def handleMcpRequest (msg : McpMessage) (settings : Settings)
    (fo : FetchOutcome) (tel : Telemetry) (elapsed : Nat) :
    Except String DispatchResult :=
  if promptMissing msg.prompt then
    .ok ⟨⟨false, 0, msg.endpoint, 0, .null, some "Missing prompt"⟩,
         tel, false, none⟩
  else
    match msg.endpoint with
    | .str endpoint =>
        match resolveRef endpoint settings with
        | .error profileName =>
            .ok ⟨⟨false, 0, .str endpoint, 0, .null,
                  some s!"Profile \x27{profileName}\x27 not found"⟩,
                 tel, true, none⟩
        | .ok (url, token, preamble, temperature) =>
            if !truthy url then
              .ok ⟨⟨false, 0, .str endpoint, 0, .null,
                    some s!"{endpoint} endpoint not configured"⟩,
                   tel, true, none⟩
            else
              let promptStr := match msg.prompt with | .str s => s | _ => ""
              let timeoutMs := jsOrNat settings.requestTimeoutMs 30000
              let body : RequestBody :=
                ⟨promptStr, msg.context, truthyOpt preamble, temperature⟩
              let call : FetchCall :=
                ⟨url.getD "", truthyOpt token, body, timeoutMs⟩
              let (env, tel) := settleFetch fo endpoint timeoutMs tel elapsed
              .ok ⟨env, tel, true, some call⟩
    | _ => .error "TypeError: endpoint.startsWith is not a function"

/-! ## Health probe (`background.js` lines 172–225) -/

/-- `PING_TIMEOUT_MS` (line 173). -/
def PING_TIMEOUT_MS : Nat := 5000

/-- A ping result object.  Error-path returns (lines 186, 196, 221,
223) carry no `status` key, modelled as `none`; `data` never exists. -/
structure PingEnvelope where
  ok : Bool
  endpoint : JsVal
  duration_ms : Nat
  status : Option Nat
  error : Option String
  deriving DecidableEq, Repr

/-- The bodyless `GET` a ping issues: URL, bearer token attached iff
truthy, and the abort timer's delay. -/
structure PingFetch where
  url : String
  token : Option String
  timeoutMs : Nat
  deriving DecidableEq, Repr

/-- What a resolved `pingEndpoint` promise carries plus the fetch it
issued (if any); a ping never touches telemetry. -/
structure PingResult where
  envelope : PingEnvelope
  fetched : Option PingFetch
  deriving DecidableEq, Repr

/-- `pingEndpoint(endpoint)` (lines 175–225): resolve the endpoint the
same way as dispatch, issue a bodyless `GET` with the fixed
`PING_TIMEOUT_MS` abort timer, classify the result; never reads or
writes telemetry; the body is never decoded.  The `endpoint.startsWith`
TypeError on a non-string endpoint rejects the promise (`.error`). -/
def pingEndpoint (ep : JsVal) (settings : Settings) (fo : FetchOutcome)
    (elapsed : Nat) : Except String PingResult :=
  match ep with
  | .str endpoint =>
      match resolveRef endpoint settings with
      | .error profileName =>
          .ok ⟨⟨false, .str endpoint, 0, none,
                some s!"Profile \x27{profileName}\x27 not found"⟩, none⟩
      | .ok (url, token, _, _) =>
          if !truthy url then
            .ok ⟨⟨false, .str endpoint, 0, none,
                  some s!"{endpoint} endpoint not configured"⟩, none⟩
          else
            let call : PingFetch := ⟨url.getD "", truthyOpt token, PING_TIMEOUT_MS⟩
            match fo with
            | .timeout =>
                .ok ⟨⟨false, .str endpoint, elapsed, none,
                      some "Ping timed out"⟩, some call⟩
            | .transportError e =>
                .ok ⟨⟨false, .str endpoint, elapsed, none,
                      some (errString e)⟩, some call⟩
            | .response status _ _ _ =>
                let ok := resOk status
                .ok ⟨⟨ok, .str endpoint, elapsed, some status,
                      if ok then none else some s!"HTTP {status}"⟩, some call⟩
  | _ => .error "TypeError: endpoint.startsWith is not a function"

/-! ## Message listener (`background.js` lines 52–77) -/

/-- An incoming runtime message, by its `type` tag; `other` covers
every unrecognized (or absent) message shape. -/
inductive Message where
  | mcpRequest (m : McpMessage)
  | getTelemetryMsg
  | pingEndpointMsg (endpoint : JsVal)
  | other
  deriving DecidableEq, Repr

/-- What `sendResponse` ends up being called with for one message —
or nothing at all (`noResponse`): unknown message types are ignored,
and a rejected `pingEndpoint` promise has no `.catch`, so its
`sendResponse` is never invoked. -/
inductive ListenerResult where
  | envelope (e : Envelope)
  | ping (p : PingEnvelope)
  | telemetrySnapshot (s : List (String × EndpointSnapshot))
  | noResponse
  deriving DecidableEq, Repr

/-- The `chrome.runtime.onMessage` listener (lines 52–77): `mcpRequest`
responses go through `.then(...).catch(...)` — a rejection is wrapped
into an `ok:false` envelope with `String(err)` (lines 54–61);
`getTelemetry` answers synchronously; `pingEndpoint` responses go
through `.then(...)` only — a rejection sends nothing.  Returns the
response (if any) and the telemetry state afterwards. -/
def onMessage (msg : Message) (settings : Settings) (fo : FetchOutcome)
    (tel : Telemetry) (elapsed : Nat) : ListenerResult × Telemetry :=
  match msg with
  | .mcpRequest m =>
      match handleMcpRequest m settings fo tel elapsed with
      | .ok r => (.envelope r.envelope, r.tel)
      | .error e =>
          (.envelope ⟨false, 0, m.endpoint, 0, .null, some e⟩, tel)
  | .getTelemetryMsg => (.telemetrySnapshot (getTelemetry tel), tel)
  | .pingEndpointMsg ep =>
      match pingEndpoint ep settings fo elapsed with
      | .ok r => (.ping r.envelope, tel)
      | .error _ => (.noResponse, tel)
  | .other => (.noResponse, tel)

/-! ## Theorems -/

/-- C3: a dispatch whose `prompt` is the empty string, absent, or not a
string is rejected pre-flight with the exact envelope
`{ok:false, status:0, duration_ms:0, data:null, error:"Missing prompt"}`,
leaving telemetry untouched, reading no settings and issuing no fetch;
and the pre-flight check never fires on a non-empty string prompt —
every such dispatch that resolves has read the settings. -/
theorem missing_prompt_preflight :
    (∀ (msg : McpMessage) (settings : Settings) (fo : FetchOutcome)
       (tel : Telemetry) (elapsed : Nat),
       promptMissing msg.prompt = true →
       handleMcpRequest msg settings fo tel elapsed =
         .ok ⟨⟨false, 0, msg.endpoint, 0, .null, some "Missing prompt"⟩,
              tel, false, none⟩) ∧
    (∀ s : String, s ≠ "" → promptMissing (.str s) = false) ∧
    (∀ (msg : McpMessage) (settings : Settings) (fo : FetchOutcome)
       (tel : Telemetry) (elapsed : Nat) (r : DispatchResult),
       promptMissing msg.prompt = false →
       handleMcpRequest msg settings fo tel elapsed = .ok r →
       r.settingsRead = true) := by
  refine ⟨?_, ?_, ?_⟩
  · intro msg settings fo tel elapsed h
    simp [handleMcpRequest, h]
  · intro s hs
    show s.isEmpty = false
    cases h : s.isEmpty
    · rfl
    · exact absurd ((String.isEmpty_iff s).mp h) hs
  · intro msg settings fo tel elapsed r h hr
    unfold handleMcpRequest at hr
    split at hr
    · next hcond => rw [h] at hcond; cases hcond
    · split at hr
      · split at hr
        · cases hr
          rfl
        · split at hr
          · cases hr
            rfl
          · repeat' split at hr
            all_goals (cases hr; rfl)
      · cases hr

/-- Witness for C3 at concrete inputs: an empty prompt, a non-string
prompt, a non-empty prompt. -/
theorem missing_prompt_preflight_witness :
    handleMcpRequest ⟨.str "local", .str "", none⟩
        ⟨none, none, none, none, none, none⟩ .timeout emptyTelemetry 5 =
      .ok ⟨⟨false, 0, .str "local", 0, .null, some "Missing prompt"⟩,
           emptyTelemetry, false, none⟩ ∧
    handleMcpRequest ⟨.str "local", .undefined, none⟩
        ⟨none, none, none, none, none, none⟩ .timeout emptyTelemetry 5 =
      .ok ⟨⟨false, 0, .str "local", 0, .null, some "Missing prompt"⟩,
           emptyTelemetry, false, none⟩ ∧
    promptMissing (.str "hi") = false ∧
    (DispatchResult.mk
      ⟨false, 0, .str "local", 0, .null, some "local endpoint not configured"⟩
      emptyTelemetry true none).settingsRead = true :=
  ⟨missing_prompt_preflight.1 ⟨.str "local", .str "", none⟩ _ _ _ _ (by decide),
   missing_prompt_preflight.1 ⟨.str "local", .undefined, none⟩ _ _ _ _ (by decide),
   missing_prompt_preflight.2.1 "hi" (by decide),
   missing_prompt_preflight.2.2 ⟨.str "local", .str "hi", none⟩
     ⟨none, none, none, none, none, none⟩ .timeout emptyTelemetry 5 _
     (by decide) (by decide)⟩

/-- Unfolding of `resolveRef` on a `profile:`-tagged endpoint. -/
theorem resolveRef_profile (ep name : String) (settings : Settings)
    (hs : strStartsWith ep "profile:" = true) (hd : strDrop ep 8 = name) :
    resolveRef ep settings =
      match (settings.profiles.getD []).find? (fun p => p.name == name) with
      | none => .error name
      | some p =>
          .ok (p.url, p.auth_token, p.default_preamble,
               p.default_temperature) := by
  unfold resolveRef
  rw [hs, hd]
  rfl

/-- Unfolding of `resolveRef` on a legacy endpoint. -/
theorem resolveRef_legacy (ep : String) (settings : Settings)
    (hs : strStartsWith ep "profile:" = false) :
    resolveRef ep settings =
      .ok ((if ep == "local" then settings.localEndpoint
            else settings.remoteEndpoint),
           (if ep == "local" then settings.localAuthToken
            else settings.remoteAuthToken),
           none, none) := by
  unfold resolveRef
  rw [hs]
  rfl

/-- Unfolding of `handleMcpRequest` on a string endpoint and a
non-empty string prompt: the dispatch is resolution, the
URL-configured check, then the fetch. -/
theorem handleMcp_ok (ep prompt : String) (ctx : Option String)
    (settings : Settings) (fo : FetchOutcome) (tel : Telemetry)
    (elapsed : Nat) (hprompt : prompt.isEmpty = false) :
    handleMcpRequest ⟨.str ep, .str prompt, ctx⟩ settings fo tel elapsed =
      match resolveRef ep settings with
      | .error profileName =>
          .ok ⟨⟨false, 0, .str ep, 0, .null,
                some s!"Profile \x27{profileName}\x27 not found"⟩,
               tel, true, none⟩
      | .ok (url, token, preamble, temperature) =>
          if !truthy url then
            .ok ⟨⟨false, 0, .str ep, 0, .null,
                  some s!"{ep} endpoint not configured"⟩,
                 tel, true, none⟩
          else
            let timeoutMs := jsOrNat settings.requestTimeoutMs 30000
            let (env, tel2) := settleFetch fo ep timeoutMs tel elapsed
            .ok ⟨env, tel2, true,
                 some ⟨url.getD "", truthyOpt token,
                       ⟨prompt, ctx, truthyOpt preamble, temperature⟩,
                       timeoutMs⟩⟩ := by
  unfold handleMcpRequest
  rw [show promptMissing (JsVal.str prompt) = false from hprompt]
  rfl

/-- C4: for an endpoint of the form `profile:<name>` (the code's own
test `startsWith("profile:")`, name = `substring(8)`): (1) resolution
scans the profile list in order under exact string equality on the
name and the first match wins, yielding its `url`, `auth_token`,
`default_preamble` and `default_temperature`; (2) when no profile
matches, dispatch resolves to `ok=false`,
`error="Profile '<name>' not found"` with no fetch issued and
telemetry untouched; (3) when the first match has a truthy URL, the
one fetch issued uses exactly the matched profile's four fields. -/
theorem profile_resolution :
    (∀ (ep name : String) (settings : Settings) (l₁ l₂ : List Profile)
       (p : Profile),
      strStartsWith ep "profile:" = true → strDrop ep 8 = name →
      settings.profiles.getD [] = l₁ ++ p :: l₂ →
      (∀ q ∈ l₁, q.name ≠ name) → p.name = name →
      resolveRef ep settings =
        .ok (p.url, p.auth_token, p.default_preamble,
             p.default_temperature)) ∧
    (∀ (ep name prompt : String) (ctx : Option String)
       (settings : Settings) (fo : FetchOutcome) (tel : Telemetry)
       (elapsed : Nat),
      prompt.isEmpty = false →
      strStartsWith ep "profile:" = true → strDrop ep 8 = name →
      (∀ q ∈ settings.profiles.getD [], q.name ≠ name) →
      handleMcpRequest ⟨.str ep, .str prompt, ctx⟩ settings fo tel elapsed =
        .ok ⟨⟨false, 0, .str ep, 0, .null,
              some s!"Profile \x27{name}\x27 not found"⟩,
             tel, true, none⟩) ∧
    (∀ (ep name prompt : String) (ctx : Option String)
       (settings : Settings) (fo : FetchOutcome) (tel : Telemetry)
       (elapsed : Nat) (p : Profile),
      prompt.isEmpty = false →
      strStartsWith ep "profile:" = true → strDrop ep 8 = name →
      (settings.profiles.getD []).find? (fun q => q.name == name) = some p →
      truthy p.url = true →
      ∀ (r : DispatchResult),
        handleMcpRequest ⟨.str ep, .str prompt, ctx⟩ settings fo tel
          elapsed = .ok r →
        r.fetched = some ⟨p.url.getD "", truthyOpt p.auth_token,
                          ⟨prompt, ctx, truthyOpt p.default_preamble,
                           p.default_temperature⟩,
                          jsOrNat settings.requestTimeoutMs 30000⟩) := by
  refine ⟨?_, ?_, ?_⟩
  · intro ep name settings l₁ l₂ p hs hd hprofiles hl₁ hp
    rw [resolveRef_profile ep name settings hs hd, hprofiles,
        List.find?_append]
    have h1 : l₁.find? (fun q => q.name == name) = none := by
      rw [List.find?_eq_none]
      intro q hq
      simpa using hl₁ q hq
    rw [h1]
    have h2 : (p :: l₂).find? (fun q => q.name == name) = some p :=
      List.find?_cons_of_pos _ (by simpa using hp)
    simp [h2]
  · intro ep name prompt ctx settings fo tel elapsed hprompt hs hd hnone
    rw [handleMcp_ok ep prompt ctx settings fo tel elapsed hprompt,
        resolveRef_profile ep name settings hs hd]
    have h1 : (settings.profiles.getD []).find?
        (fun q => q.name == name) = none := by
      rw [List.find?_eq_none]
      intro q hq
      simpa using hnone q hq
    rw [h1]
  · intro ep name prompt ctx settings fo tel elapsed p hprompt hs hd
      hfind hurl r hr
    rw [handleMcp_ok ep prompt ctx settings fo tel elapsed hprompt,
        resolveRef_profile ep name settings hs hd, hfind] at hr
    simp only [hurl, Bool.not_true, Bool.false_eq_true, if_false] at hr
    rcases hsf : settleFetch fo ep (jsOrNat settings.requestTimeoutMs 30000)
        tel elapsed with ⟨env, tel2⟩
    rw [hsf] at hr
    cases hr
    rfl

/-- Witness for C4: a profile list with a decoy first entry and a
duplicate of the matched name behind it — the first exact match wins
and its fields reach the fetch. -/
theorem profile_resolution_witness :
    resolveRef "profile:dev"
      ⟨none, none, none, none, none,
       some [⟨"prod", some "http://prod", none, none, none⟩,
             ⟨"dev", some "http://dev", some "tok", some "pre", some 1⟩,
             ⟨"dev", some "http://dup", none, none, none⟩]⟩ =
      .ok (some "http://dev", some "tok", some "pre", some 1) ∧
    handleMcpRequest ⟨.str "profile:X", .str "hi", none⟩
        ⟨none, none, none, none, none, some []⟩ .timeout emptyTelemetry 5 =
      .ok ⟨⟨false, 0, .str "profile:X", 0, .null,
            some "Profile \x27X\x27 not found"⟩, emptyTelemetry, true, none⟩ ∧
    (DispatchResult.mk
      ⟨false, 0, .str "profile:dev", 9, .null,
       some "Request timed out after 30000ms"⟩
      (trackCall emptyTelemetry "profile:dev" 9 false) true
      (some ⟨"http://dev", some "tok", ⟨"hi", none, some "pre", some 1⟩,
             30000⟩)).fetched =
      some ⟨"http://dev", some "tok", ⟨"hi", none, some "pre", some 1⟩,
            30000⟩ := by
  refine ⟨?_, ?_, ?_⟩
  · exact profile_resolution.1 "profile:dev" "dev" _
      [⟨"prod", some "http://prod", none, none, none⟩]
      [⟨"dev", some "http://dup", none, none, none⟩]
      ⟨"dev", some "http://dev", some "tok", some "pre", some 1⟩
      (by decide) (by decide) rfl (by decide) rfl
  · exact profile_resolution.2.1 "profile:X" "X" "hi" none _ .timeout
      emptyTelemetry 5 (by decide) (by decide) (by decide) (by decide)
  · exact profile_resolution.2.2 "profile:dev" "dev" "hi" none
      ⟨none, none, none, none, none,
       some [⟨"prod", some "http://prod", none, none, none⟩,
             ⟨"dev", some "http://dev", some "tok", some "pre", some 1⟩,
             ⟨"dev", some "http://dup", none, none, none⟩]⟩
      .timeout emptyTelemetry 9
      ⟨"dev", some "http://dev", some "tok", some "pre", some 1⟩
      (by decide) (by decide) (by decide) (by decide) (by decide) _
      (by decide)

/-- Unfolding of `pingEndpoint` on a string endpoint. -/
theorem ping_ok (ep : String) (settings : Settings) (fo : FetchOutcome)
    (elapsed : Nat) :
    pingEndpoint (.str ep) settings fo elapsed =
      match resolveRef ep settings with
      | .error profileName =>
          .ok ⟨⟨false, .str ep, 0, none,
                some s!"Profile \x27{profileName}\x27 not found"⟩, none⟩
      | .ok (url, token, _, _) =>
          if !truthy url then
            .ok ⟨⟨false, .str ep, 0, none,
                  some s!"{ep} endpoint not configured"⟩, none⟩
          else
            let call : PingFetch := ⟨url.getD "", truthyOpt token,
                                     PING_TIMEOUT_MS⟩
            match fo with
            | .timeout =>
                .ok ⟨⟨false, .str ep, elapsed, none,
                      some "Ping timed out"⟩, some call⟩
            | .transportError e =>
                .ok ⟨⟨false, .str ep, elapsed, none,
                      some (errString e)⟩, some call⟩
            | .response status _ _ _ =>
                let ok := resOk status
                .ok ⟨⟨ok, .str ep, elapsed, some status,
                      if ok then none else some s!"HTTP {status}"⟩,
                     some call⟩ := rfl

/-- C9: whenever the resolved URL is absent or empty — a legacy
(`local`/`remote`) endpoint whose settings field is unset or `""`, or
a matched profile whose `url` is unset or `""` — both dispatch and
ping resolve to `ok=false`, `error="<endpoint> endpoint not
configured"`, with no fetch issued and telemetry untouched. -/
theorem endpoint_not_configured :
    (∀ (ep prompt : String) (ctx : Option String) (settings : Settings)
       (fo : FetchOutcome) (tel : Telemetry) (elapsed : Nat),
      prompt.isEmpty = false →
      strStartsWith ep "profile:" = false →
      truthy (if ep == "local" then settings.localEndpoint
              else settings.remoteEndpoint) = false →
      handleMcpRequest ⟨.str ep, .str prompt, ctx⟩ settings fo tel elapsed =
        .ok ⟨⟨false, 0, .str ep, 0, .null,
              some s!"{ep} endpoint not configured"⟩, tel, true, none⟩) ∧
    (∀ (ep name prompt : String) (ctx : Option String)
       (settings : Settings) (fo : FetchOutcome) (tel : Telemetry)
       (elapsed : Nat) (p : Profile),
      prompt.isEmpty = false →
      strStartsWith ep "profile:" = true → strDrop ep 8 = name →
      (settings.profiles.getD []).find? (fun q => q.name == name) = some p →
      truthy p.url = false →
      handleMcpRequest ⟨.str ep, .str prompt, ctx⟩ settings fo tel elapsed =
        .ok ⟨⟨false, 0, .str ep, 0, .null,
              some s!"{ep} endpoint not configured"⟩, tel, true, none⟩) ∧
    (∀ (ep : String) (settings : Settings) (fo : FetchOutcome)
       (elapsed : Nat),
      strStartsWith ep "profile:" = false →
      truthy (if ep == "local" then settings.localEndpoint
              else settings.remoteEndpoint) = false →
      pingEndpoint (.str ep) settings fo elapsed =
        .ok ⟨⟨false, .str ep, 0, none,
              some s!"{ep} endpoint not configured"⟩, none⟩) ∧
    (∀ (ep name : String) (settings : Settings) (fo : FetchOutcome)
       (elapsed : Nat) (p : Profile),
      strStartsWith ep "profile:" = true → strDrop ep 8 = name →
      (settings.profiles.getD []).find? (fun q => q.name == name) = some p →
      truthy p.url = false →
      pingEndpoint (.str ep) settings fo elapsed =
        .ok ⟨⟨false, .str ep, 0, none,
              some s!"{ep} endpoint not configured"⟩, none⟩) := by
  refine ⟨?_, ?_, ?_, ?_⟩
  · intro ep prompt ctx settings fo tel elapsed hprompt hs hurl
    rw [handleMcp_ok ep prompt ctx settings fo tel elapsed hprompt,
        resolveRef_legacy ep settings hs]
    dsimp only
    rw [hurl]
    rfl
  · intro ep name prompt ctx settings fo tel elapsed p hprompt hs hd
      hfind hurl
    rw [handleMcp_ok ep prompt ctx settings fo tel elapsed hprompt,
        resolveRef_profile ep name settings hs hd, hfind]
    dsimp only
    rw [hurl]
    rfl
  · intro ep settings fo elapsed hs hurl
    rw [ping_ok, resolveRef_legacy ep settings hs]
    dsimp only
    rw [hurl]
    rfl
  · intro ep name settings fo elapsed p hs hd hfind hurl
    rw [ping_ok, resolveRef_profile ep name settings hs hd, hfind]
    dsimp only
    rw [hurl]
    rfl

/-- Witness for C9 at concrete inputs: an unset legacy URL, a profile
with an empty URL, and a ping against an unset remote URL. -/
theorem endpoint_not_configured_witness :
    handleMcpRequest ⟨.str "local", .str "hi", none⟩
        ⟨none, none, none, none, none, none⟩ .timeout emptyTelemetry 5 =
      .ok ⟨⟨false, 0, .str "local", 0, .null,
            some "local endpoint not configured"⟩,
           emptyTelemetry, true, none⟩ ∧
    handleMcpRequest ⟨.str "profile:dev", .str "hi", none⟩
        ⟨none, none, none, none, none,
         some [⟨"dev", some "", none, none, none⟩]⟩ .timeout
        emptyTelemetry 5 =
      .ok ⟨⟨false, 0, .str "profile:dev", 0, .null,
            some "profile:dev endpoint not configured"⟩,
           emptyTelemetry, true, none⟩ ∧
    pingEndpoint (.str "remote") ⟨some "http://l", none, none, none,
        none, none⟩ .timeout 3 =
      .ok ⟨⟨false, .str "remote", 0, none,
            some "remote endpoint not configured"⟩, none⟩ := by
  refine ⟨?_, ?_, ?_⟩
  · exact endpoint_not_configured.1 "local" "hi" none _ .timeout
      emptyTelemetry 5 (by decide) (by decide) (by decide)
  · exact endpoint_not_configured.2.1 "profile:dev" "dev" "hi" none _
      .timeout emptyTelemetry 5 ⟨"dev", some "", none, none, none⟩
      (by decide) (by decide) (by decide) (by decide) (by decide)
  · exact endpoint_not_configured.2.2.1 "remote" _ .timeout 3
      (by decide) (by decide)

/-- Classification of the envelope `settleFetch` builds, by fetch
outcome. -/
theorem settleFetch_classification (fo : FetchOutcome) (ep : String)
    (T : Nat) (tel : Telemetry) (elapsed : Nat) :
    (∀ e, fo = .transportError e →
      (settleFetch fo ep T tel elapsed).1.ok = false ∧
      (settleFetch fo ep T tel elapsed).1.status = 0 ∧
      (settleFetch fo ep T tel elapsed).1.error = some (errString e)) ∧
    (fo = .timeout →
      (settleFetch fo ep T tel elapsed).1.ok = false ∧
      (settleFetch fo ep T tel elapsed).1.status = 0 ∧
      (settleFetch fo ep T tel elapsed).1.error =
        some s!"Request timed out after {T}ms") ∧
    (∀ status ct jb tb, fo = .response status ct jb tb →
      (strIncludes (ct.getD "") "application/json" = false ∨
        ∃ j, jb = Except.ok j) →
      (settleFetch fo ep T tel elapsed).1.ok = resOk status ∧
      (settleFetch fo ep T tel elapsed).1.status = status ∧
      (settleFetch fo ep T tel elapsed).1.error =
        (if resOk status then none else some s!"HTTP {status}")) ∧
    (∀ status ct e tb, fo = .response status ct (Except.error e) tb →
      strIncludes (ct.getD "") "application/json" = true →
      (settleFetch fo ep T tel elapsed).1.ok = false ∧
      (settleFetch fo ep T tel elapsed).1.status = 0 ∧
      (settleFetch fo ep T tel elapsed).1.error = some (errString e)) := by
  refine ⟨?_, ?_, ?_, ?_⟩
  · intro e hfo
    subst hfo
    exact ⟨rfl, rfl, rfl⟩
  · intro hfo
    subst hfo
    exact ⟨rfl, rfl, rfl⟩
  · intro status ct jb tb hfo hdec
    subst hfo
    rcases hdec with h | ⟨j, rfl⟩
    · simp [settleFetch, h]
    · by_cases h : strIncludes (ct.getD "") "application/json" = true
      · simp [settleFetch, h, Except.map]
      · simp [settleFetch, h]
  · intro status ct e tb hfo hct
    subst hfo
    simp [settleFetch, hct, Except.map]

/-- C2 (amended): for every dispatch that issues its network call, the
outcome classification is: transport failure → `ok=false, status=0,
error=<message>`; timeout → `ok=false, status=0,
error="Request timed out after <timeoutMs>ms"`; HTTP response received
*and body decoding succeeded* (non-JSON content type, or a JSON body
that parses) → `ok = (status in [200,299])`, `error=null` if ok else
`"HTTP <status>"`; an HTTP response whose declared-JSON body fails to
parse is classified like a transport failure: `ok=false, status=0,
error=<parse message>`. -/
theorem dispatch_outcome_classification
    (msg : McpMessage) (settings : Settings) (fo : FetchOutcome)
    (tel : Telemetry) (elapsed : Nat) (r : DispatchResult)
    (timeoutMs : Nat)
    (htm : timeoutMs = jsOrNat settings.requestTimeoutMs 30000)
    (hr : handleMcpRequest msg settings fo tel elapsed = .ok r)
    (hsome : r.fetched.isSome = true) :
    (∀ e, fo = .transportError e →
      r.envelope.ok = false ∧ r.envelope.status = 0 ∧
      r.envelope.error = some (errString e)) ∧
    (fo = .timeout →
      r.envelope.ok = false ∧ r.envelope.status = 0 ∧
      r.envelope.error = some s!"Request timed out after {timeoutMs}ms") ∧
    (∀ status ct jb tb, fo = .response status ct jb tb →
      (strIncludes (ct.getD "") "application/json" = false ∨
        ∃ j, jb = Except.ok j) →
      r.envelope.ok = resOk status ∧ r.envelope.status = status ∧
      r.envelope.error =
        (if resOk status then none else some s!"HTTP {status}")) ∧
    (∀ status ct e tb, fo = .response status ct (Except.error e) tb →
      strIncludes (ct.getD "") "application/json" = true →
      r.envelope.ok = false ∧ r.envelope.status = 0 ∧
      r.envelope.error = some (errString e)) := by
  subst htm
  obtain ⟨ep, henv⟩ : ∃ ep, r.envelope =
      (settleFetch fo ep (jsOrNat settings.requestTimeoutMs 30000) tel
        elapsed).1 := by
    unfold handleMcpRequest at hr
    split at hr
    · cases hr
      cases hsome
    · split at hr
      · split at hr
        · cases hr
          cases hsome
        · split at hr
          · cases hr
            cases hsome
          · repeat' split at hr
            all_goals
              cases hr
              exact ⟨_, rfl⟩
      · cases hr
  rw [henv]
  exact settleFetch_classification fo ep
    (jsOrNat settings.requestTimeoutMs 30000) tel elapsed

/-- Witness for C2 (amended) at concrete inputs: a timeout with
`requestTimeoutMs=50` and a 404 text response. -/
theorem dispatch_outcome_classification_witness :
    (DispatchResult.mk
      ⟨false, 0, .str "local", 7, .null,
       some "Request timed out after 50ms"⟩
      (trackCall emptyTelemetry "local" 7 false) true
      (some ⟨"http://x", none, ⟨"hi", none, none, none⟩, 50⟩)).envelope.error =
      some "Request timed out after 50ms" ∧
    (DispatchResult.mk
      ⟨false, 404, .str "local", 7, .text "nope", some "HTTP 404"⟩
      (trackCall emptyTelemetry "local" 7 false) true
      (some ⟨"http://x", none, ⟨"hi", none, none, none⟩, 30000⟩)).envelope.error =
      some "HTTP 404" := by
  constructor
  · exact ((dispatch_outcome_classification ⟨.str "local", .str "hi", none⟩
      ⟨some "http://x", none, none, none, some 50, none⟩ .timeout
      emptyTelemetry 7 _ 50 (by decide) (by decide) (by decide)).2.1
      rfl).2.2
  · exact (((dispatch_outcome_classification ⟨.str "local", .str "hi", none⟩
      ⟨some "http://x", none, none, none, none, none⟩
      (.response 404 none (.ok "") "nope") emptyTelemetry 7 _ 30000
      (by decide) (by decide) (by decide)).2.2.1 404 none (.ok "") "nope"
      rfl (Or.inl (by decide))).2.2).trans (by decide)

/-- C2 counterexample: a received HTTP 200 response that declares a
JSON content type but whose body fails to parse is *not* classified as
`ok=true, status:200, error:null` (the claim requires `ok ↔ status in
[200,299]` for every received response): the code's `res.json()`
rejection lands in the generic catch and yields `ok=false, status=0`
with the parse error message. -/
theorem http_response_misclassified_on_decode_failure :
    handleMcpRequest ⟨.str "local", .str "hi", none⟩
        ⟨some "http://x", none, none, none, none, none⟩
        (.response 200 (some "application/json")
          (.error ⟨some "Unexpected end of JSON input",
                   "SyntaxError: Unexpected end of JSON input"⟩) "")
        emptyTelemetry 7 =
      .ok ⟨⟨false, 0, .str "local", 7, .null,
            some "Unexpected end of JSON input"⟩,
           trackCall emptyTelemetry "local" 7 false, true,
           some ⟨"http://x", none, ⟨"hi", none, none, none⟩, 30000⟩⟩ ∧
    resOk 200 = true := by
  constructor
  · decide
  · decide

/-- The exactly-one-of invariant on a result's `ok`/`error` pair. -/
def envWf (ok : Bool) (error : Option String) : Prop :=
  (ok = true ∧ error = none) ∨ (ok = false ∧ error ≠ none)

/-- The invariant, applied to whatever the listener responds with. -/
def listenerWf : ListenerResult → Prop
  | .envelope e => envWf e.ok e.error
  | .ping p => envWf p.ok p.error
  | _ => True

/-- The envelope `settleFetch` builds satisfies the invariant. -/
theorem settleFetch_wf (fo : FetchOutcome) (ep : String) (T : Nat)
    (tel : Telemetry) (elapsed : Nat) :
    envWf (settleFetch fo ep T tel elapsed).1.ok
      (settleFetch fo ep T tel elapsed).1.error := by
  cases fo with
  | timeout => exact Or.inr ⟨rfl, by simp [settleFetch]⟩
  | transportError e => exact Or.inr ⟨rfl, by simp [settleFetch]⟩
  | response status ct jb tb =>
      simp only [settleFetch]
      split
      · by_cases h : resOk status = true
        · exact Or.inl ⟨h, by simp [h]⟩
        · exact Or.inr ⟨by simpa using h, by simp [h]⟩
      · exact Or.inr ⟨rfl, by simp⟩

/-- Every envelope a resolved dispatch carries satisfies the
invariant. -/
theorem handleMcp_wf (msg : McpMessage) (settings : Settings)
    (fo : FetchOutcome) (tel : Telemetry) (elapsed : Nat)
    (r : DispatchResult)
    (hr : handleMcpRequest msg settings fo tel elapsed = .ok r) :
    envWf r.envelope.ok r.envelope.error := by
  unfold handleMcpRequest at hr
  split at hr
  · cases hr
    exact Or.inr ⟨rfl, by simp⟩
  · split at hr
    · split at hr
      · cases hr
        exact Or.inr ⟨rfl, by simp⟩
      · split at hr
        · cases hr
          exact Or.inr ⟨rfl, by simp⟩
        · repeat' split at hr
          all_goals
            cases hr
            exact settleFetch_wf fo _ _ tel elapsed
    · cases hr

/-- Every envelope a resolved ping carries satisfies the invariant. -/
theorem ping_wf (ep : JsVal) (settings : Settings) (fo : FetchOutcome)
    (elapsed : Nat) (r : PingResult)
    (hr : pingEndpoint ep settings fo elapsed = .ok r) :
    envWf r.envelope.ok r.envelope.error := by
  cases ep with
  | str s =>
      rw [ping_ok] at hr
      split at hr
      · cases hr
        exact Or.inr ⟨rfl, by simp⟩
      · split at hr
        · cases hr
          exact Or.inr ⟨rfl, by simp⟩
        · split at hr
          · cases hr
            exact Or.inr ⟨rfl, by simp⟩
          · cases hr
            exact Or.inr ⟨rfl, by simp⟩
          · rename_i status ct jb tb
            cases hr
            by_cases h : resOk status = true
            · exact Or.inl ⟨h, by simp [h]⟩
            · exact Or.inr ⟨by simpa using h, by simp [h]⟩
  | undefined => cases hr
  | other => cases hr

/-- C7: every response envelope the listener produces — dispatch
envelopes (including the catch-all wrapper for rejected dispatch
promises) and ping results alike — satisfies exactly one of
`(ok=true, error=null)` or `(ok=false, error=<non-null string>)`. -/
theorem envelope_exactly_one_invariant (msg : Message)
    (settings : Settings) (fo : FetchOutcome) (tel : Telemetry)
    (elapsed : Nat) :
    listenerWf (onMessage msg settings fo tel elapsed).1 := by
  cases msg with
  | mcpRequest m =>
      dsimp only [onMessage]
      split
      · next r hr => exact handleMcp_wf m settings fo tel elapsed r hr
      · exact Or.inr ⟨rfl, by simp⟩
  | getTelemetryMsg => trivial
  | pingEndpointMsg ep =>
      dsimp only [onMessage]
      split
      · next r hr => exact ping_wf ep settings fo elapsed r hr
      · trivial
  | other => trivial

/-- The envelope a ping that issued its GET resolves with, by fetch
outcome. -/
def pingOutcomeEnvelope (s : String) (fo : FetchOutcome) (elapsed : Nat) :
    PingEnvelope :=
  match fo with
  | .timeout => ⟨false, .str s, elapsed, none, some "Ping timed out"⟩
  | .transportError e => ⟨false, .str s, elapsed, none, some (errString e)⟩
  | .response status _ _ _ =>
      ⟨resOk status, .str s, elapsed, some status,
       if resOk status then none else some s!"HTTP {status}"⟩

/-- A resolved ping that issued its fetch has the shape: outcome
envelope plus a GET descriptor carrying the fixed ping timeout. -/
theorem ping_fetch_shape (s : String) (settings : Settings)
    (fo : FetchOutcome) (elapsed : Nat) (r : PingResult)
    (hr : pingEndpoint (.str s) settings fo elapsed = .ok r)
    (hsome : r.fetched.isSome = true) :
    ∃ u t, r = ⟨pingOutcomeEnvelope s fo elapsed,
                some ⟨u, t, PING_TIMEOUT_MS⟩⟩ := by
  rw [ping_ok] at hr
  split at hr
  · cases hr
    cases hsome
  · split at hr
    · cases hr
      cases hsome
    · split at hr
      all_goals
        cases hr
        exact ⟨_, _, rfl⟩

/-- C8 counterexample: a ping whose abort timer fires resolves with
`error="Ping timed out"` — not the Dispatcher's timeout message
`"Request timed out after 5000ms"` the claim requires. -/
theorem ping_timeout_message_differs :
    pingEndpoint (.str "local")
        ⟨some "http://l", none, none, none, none, none⟩ .timeout 3 =
      .ok ⟨⟨false, .str "local", 3, none, some "Ping timed out"⟩,
           some ⟨"http://l", none, 5000⟩⟩ ∧
    some "Ping timed out" ≠ some "Request timed out after 5000ms" := by
  constructor
  · decide
  · decide

/-- C8 (amended): the probe uses the fixed `PING_TIMEOUT_MS = 5000`
abort timer on the GET it issues, and classifies transport failures
and received HTTP responses exactly as the Dispatcher does (`ok =
status in [200,299]`, `error="HTTP <status>"` on HTTP failure,
`error=<message>` on transport failure); but when its timeout fires
the envelope carries the probe's own message `"Ping timed out"`
(`ok=false`), not the Dispatcher's `"Request timed out after 5000ms"`. -/
theorem ping_timeout_classification :
    PING_TIMEOUT_MS = 5000 ∧
    (∀ (ep : JsVal) (settings : Settings) (fo : FetchOutcome)
       (elapsed : Nat) (r : PingResult) (c : PingFetch),
      pingEndpoint ep settings fo elapsed = .ok r →
      r.fetched = some c → c.timeoutMs = 5000) ∧
    (∀ (ep : JsVal) (settings : Settings) (elapsed : Nat) (r : PingResult),
      pingEndpoint ep settings .timeout elapsed = .ok r →
      r.fetched.isSome = true →
      r.envelope.ok = false ∧ r.envelope.error = some "Ping timed out") ∧
    (∀ (ep : JsVal) (settings : Settings) (elapsed : Nat) (r : PingResult)
       (e : JsError),
      pingEndpoint ep settings (.transportError e) elapsed = .ok r →
      r.fetched.isSome = true →
      r.envelope.ok = false ∧ r.envelope.error = some (errString e)) ∧
    (∀ (ep : JsVal) (settings : Settings) (elapsed : Nat) (r : PingResult)
       (status : Nat) (ct : Option String) (jb : Except JsError String)
       (tb : String),
      pingEndpoint ep settings (.response status ct jb tb) elapsed = .ok r →
      r.fetched.isSome = true →
      r.envelope.ok = resOk status ∧ r.envelope.status = some status ∧
      r.envelope.error =
        (if resOk status then none else some s!"HTTP {status}")) := by
  refine ⟨rfl, ?_, ?_, ?_, ?_⟩
  · intro ep settings fo elapsed r c hr hc
    cases ep
    case str s =>
      obtain ⟨u, t, rfl⟩ := ping_fetch_shape s settings fo elapsed r hr
        (by rw [hc]; rfl)
      cases hc
      rfl
    all_goals cases hr
  · intro ep settings elapsed r hr hsome
    cases ep
    case str s =>
      obtain ⟨u, t, rfl⟩ := ping_fetch_shape s settings .timeout elapsed r
        hr hsome
      exact ⟨rfl, rfl⟩
    all_goals cases hr
  · intro ep settings elapsed r e hr hsome
    cases ep
    case str s =>
      obtain ⟨u, t, rfl⟩ := ping_fetch_shape s settings (.transportError e)
        elapsed r hr hsome
      exact ⟨rfl, rfl⟩
    all_goals cases hr
  · intro ep settings elapsed r status ct jb tb hr hsome
    cases ep
    case str s =>
      obtain ⟨u, t, rfl⟩ := ping_fetch_shape s settings
        (.response status ct jb tb) elapsed r hr hsome
      exact ⟨rfl, rfl, rfl⟩
    all_goals cases hr

/-- Witness for C8 (amended): a timed-out ping against a configured
local URL, and a 404 ping response. -/
theorem ping_timeout_classification_witness :
    (PingFetch.mk "http://l" none 5000).timeoutMs = 5000 ∧
    (PingResult.mk ⟨false, .str "local", 3, none, some "Ping timed out"⟩
      (some ⟨"http://l", none, 5000⟩)).envelope.error =
      some "Ping timed out" ∧
    (PingResult.mk ⟨false, .str "local", 3, some 404, some "HTTP 404"⟩
      (some ⟨"http://l", none, 5000⟩)).envelope.status = some 404 := by
  refine ⟨?_, ?_, ?_⟩
  · exact ping_timeout_classification.2.1 (.str "local")
      ⟨some "http://l", none, none, none, none, none⟩ .timeout 3
      ⟨⟨false, .str "local", 3, none, some "Ping timed out"⟩,
       some ⟨"http://l", none, 5000⟩⟩ ⟨"http://l", none, 5000⟩
      (by decide) rfl
  · exact (ping_timeout_classification.2.2.1 (.str "local")
      ⟨some "http://l", none, none, none, none, none⟩ 3
      ⟨⟨false, .str "local", 3, none, some "Ping timed out"⟩,
       some ⟨"http://l", none, 5000⟩⟩ (by decide) rfl).2
  · exact ((ping_timeout_classification.2.2.2.2 (.str "local")
      ⟨some "http://l", none, none, none, none, none⟩ 3
      ⟨⟨false, .str "local", 3, some 404, some "HTTP 404"⟩,
       some ⟨"http://l", none, 5000⟩⟩ 404 none (.ok "") ""
      (by decide) rfl).2).1

/-- Does the listener answer with a dispatch envelope? -/
def respondsEnvelope : ListenerResult → Bool
  | .envelope _ => true
  | _ => false

/-- Does the listener answer with a ping result? -/
def respondsPing : ListenerResult → Bool
  | .ping _ => true
  | _ => false

/-- A ping operation whose endpoint field is a string never rejects:
every path through `pingEndpoint` returns an envelope. -/
theorem ping_str_resolves (s : String) (settings : Settings)
    (fo : FetchOutcome) (elapsed : Nat) (e : String) :
    pingEndpoint (.str s) settings fo elapsed ≠ .error e := by
  intro h
  rw [ping_ok] at h
  repeat' split at h
  all_goals cases h

/-- An `ok=false` half of the exactly-one-of invariant forces a
non-null error. -/
theorem envWf_false {ok : Bool} {err : Option String} (h : envWf ok err)
    (hok : ok = false) : err ≠ none := by
  rcases h with ⟨h1, _⟩ | ⟨_, h2⟩
  · rw [hok] at h1
    cases h1
  · exact h2

/-- C1 counterexample: a `pingEndpoint` message whose endpoint field is
missing (`undefined`) makes `pingEndpoint` throw at
`endpoint.startsWith` outside its try/catch; the rejected promise's
`.then` has no `.catch`, so `sendResponse` is never invoked — the
operation resolves to no envelope at all, contradicting the claim for
`pingEndpoint` messages. -/
theorem ping_missing_endpoint_no_response :
    (onMessage (.pingEndpointMsg .undefined)
      ⟨none, none, none, none, none, none⟩ .timeout emptyTelemetry 0).1 =
      .noResponse := by decide

/-- C1 (amended): an `mcpRequest` message always resolves to a
response envelope, and whenever that envelope reports failure its
error is a non-null string — including for unexpected exceptions such
as a missing or non-string endpoint field, which the listener's
`.catch` wraps; a `pingEndpoint` message behaves the same for every
error arising with a string endpoint field, but a missing or
non-string endpoint field rejects the ping promise, which has no
`.catch`: no response of any kind is sent. -/
theorem listener_error_capture :
    (∀ (m : McpMessage) (settings : Settings) (fo : FetchOutcome)
       (tel : Telemetry) (elapsed : Nat),
      respondsEnvelope (onMessage (.mcpRequest m) settings fo tel
        elapsed).1 = true) ∧
    (∀ (m : McpMessage) (settings : Settings) (fo : FetchOutcome)
       (tel : Telemetry) (elapsed : Nat) (env : Envelope),
      (onMessage (.mcpRequest m) settings fo tel elapsed).1 =
        .envelope env →
      env.ok = false → env.error ≠ none) ∧
    (∀ (s : String) (settings : Settings) (fo : FetchOutcome)
       (tel : Telemetry) (elapsed : Nat),
      respondsPing (onMessage (.pingEndpointMsg (.str s)) settings fo tel
        elapsed).1 = true) ∧
    (∀ (s : String) (settings : Settings) (fo : FetchOutcome)
       (tel : Telemetry) (elapsed : Nat) (p : PingEnvelope),
      (onMessage (.pingEndpointMsg (.str s)) settings fo tel elapsed).1 =
        .ping p →
      p.ok = false → p.error ≠ none) ∧
    (∀ (settings : Settings) (fo : FetchOutcome) (tel : Telemetry)
       (elapsed : Nat),
      (onMessage (.pingEndpointMsg .undefined) settings fo tel
        elapsed).1 = .noResponse ∧
      (onMessage (.pingEndpointMsg .other) settings fo tel
        elapsed).1 = .noResponse) := by
  refine ⟨?_, ?_, ?_, ?_, fun _ _ _ _ => ⟨rfl, rfl⟩⟩
  · intro m settings fo tel elapsed
    dsimp only [onMessage]
    split
    · rfl
    · rfl
  · intro m settings fo tel elapsed env henv hok
    dsimp only [onMessage] at henv
    split at henv
    · next r hr =>
        cases henv
        exact envWf_false (handleMcp_wf m settings fo tel elapsed r hr) hok
    · cases henv
      simp
  · intro s settings fo tel elapsed
    dsimp only [onMessage]
    split
    · rfl
    · next e hr => exact absurd hr (ping_str_resolves s settings fo elapsed e)
  · intro s settings fo tel elapsed p hp hok
    dsimp only [onMessage] at hp
    split at hp
    · next r hr =>
        cases hp
        exact envWf_false (ping_wf (.str s) settings fo elapsed r hr) hok
    · cases hp

/-- Witness for C1 (amended): an `mcpRequest` with an `undefined`
endpoint still gets a wrapped error envelope; a timed-out ping against
a configured URL gets a non-null error string. -/
theorem listener_error_capture_witness :
    (Envelope.mk false 0 .undefined 0 .null
      (some "TypeError: endpoint.startsWith is not a function")).error ≠
      none ∧
    (PingEnvelope.mk false (.str "local") 3 none
      (some "Ping timed out")).error ≠ none :=
  ⟨listener_error_capture.2.1 ⟨.undefined, .str "hi", none⟩
    ⟨none, none, none, none, none, none⟩ .timeout emptyTelemetry 0 _
    (by decide) rfl,
   listener_error_capture.2.2.2.1 "local"
    ⟨some "http://l", none, none, none, none, none⟩ .timeout
    emptyTelemetry 3 _ (by decide) rfl⟩

/-! ## Telemetry lemmas -/

/-- The last `min(MAX_LATENCY_SAMPLES, length)` samples of a duration
sequence, in arrival order. -/
def lastWindow (ds : List Nat) : List Nat :=
  ds.drop (ds.length - MAX_LATENCY_SAMPLES)

/-- Pushing onto the rolling window keeps exactly the last
`MAX_LATENCY_SAMPLES` samples. -/
theorem pushLatency_lastWindow (ds : List Nat) (d : Nat) :
    pushLatency d (lastWindow ds) = lastWindow (ds ++ [d]) := by
  unfold pushLatency lastWindow MAX_LATENCY_SAMPLES
  have hdrop : ds.drop (ds.length - 100) ++ [d] =
      (ds ++ [d]).drop (ds.length - 100) :=
    (List.drop_append_of_le_length (by omega)).symm
  rcases le_or_lt 100 ds.length with h | h
  · rw [if_pos, hdrop, List.tail_drop]
    · congr 1
      simp only [List.length_append, List.length_singleton]
      omega
    · simp only [List.length_append, List.length_drop,
        List.length_singleton]
      omega
  · rw [if_neg]
    · rw [hdrop]
      congr 1
      simp only [List.length_append, List.length_singleton]
      omega
    · simp only [List.length_append, List.length_drop,
        List.length_singleton]
      omega

/-- Folding the window push over a full duration sequence from the
empty window yields exactly the last-100 window. -/
theorem foldl_pushLatency_lastWindow (ds : List Nat) :
    ds.foldl (fun a d => pushLatency d a) [] = lastWindow ds := by
  induction ds using List.reverseRecOn with
  | nil => rfl
  | append_singleton ds d ih =>
      rw [List.foldl_append, ih, List.foldl_cons, List.foldl_nil]
      exact pushLatency_lastWindow ds d

/-- Folding the counter bump over an event sequence adds the event
count, the success count and the failure count. -/
theorem foldl_bumpStats (evs : List (Nat × Bool)) (st : EndpointStats) :
    evs.foldl (fun a ev => bumpStats ev.2 a) st =
      ⟨st.total + evs.length, st.success + evs.countP (fun ev => ev.2),
       st.failed + evs.countP (fun ev => !ev.2)⟩ := by
  induction evs generalizing st with
  | nil => simp
  | cons ev rest ih =>
      rw [List.foldl_cons, ih]
      rcases ev with ⟨d, b⟩
      cases b <;>
        simp [bumpStats, List.countP_cons, EndpointStats.mk.injEq] <;>
        omega

/-- A `trackCall` on a state holding exactly this endpoint's entries
bumps its counters and pushes onto its window. -/
theorem trackCall_single (e : String) (st : EndpointStats) (w : List Nat)
    (d : Nat) (b : Bool) :
    trackCall ⟨[(e, st)], [(e, w)]⟩ e d b =
      ⟨[(e, bumpStats b st)], [(e, pushLatency d w)]⟩ := by
  simp [trackCall, List.lookup, updateAssoc]

/-- The first `trackCall` creates the endpoint's entries and records
into them. -/
theorem trackCall_empty (e : String) (d : Nat) (b : Bool) :
    trackCall emptyTelemetry e d b =
      ⟨[(e, bumpStats b ⟨0, 0, 0⟩)], [(e, pushLatency d [])]⟩ := by
  simp [trackCall, emptyTelemetry, List.lookup, updateAssoc]

/-- Recording a sequence of events for one endpoint over its own
single-endpoint state folds the counter bumps and window pushes. -/
theorem foldl_trackCall_single (e : String) (evs : List (Nat × Bool))
    (st : EndpointStats) (w : List Nat) :
    evs.foldl (fun t ev => trackCall t e ev.1 ev.2) ⟨[(e, st)], [(e, w)]⟩ =
      ⟨[(e, evs.foldl (fun a ev => bumpStats ev.2 a) st)],
       [(e, evs.foldl (fun a ev => pushLatency ev.1 a) w)]⟩ := by
  induction evs generalizing st w with
  | nil => rfl
  | cons ev rest ih =>
      rw [List.foldl_cons, trackCall_single, ih, List.foldl_cons,
        List.foldl_cons]

/-- The state after recording a non-empty event sequence for one
endpoint from the initial telemetry. -/
theorem recordAll_nonempty (e : String) (ev : Nat × Bool)
    (rest : List (Nat × Bool)) :
    recordAll e (ev :: rest) =
      ⟨[(e, (ev :: rest).foldl (fun a x => bumpStats x.2 a) ⟨0, 0, 0⟩)],
       [(e, (ev :: rest).foldl (fun a x => pushLatency x.1 a) [])]⟩ := by
  unfold recordAll
  rw [List.foldl_cons, trackCall_empty, foldl_trackCall_single,
    List.foldl_cons, List.foldl_cons]

/-- Successes and failures of an event sequence partition it. -/
theorem countP_partition (evs : List (Nat × Bool)) :
    evs.countP (fun ev => ev.2) + evs.countP (fun ev => !ev.2) =
      evs.length := by
  induction evs with
  | nil => rfl
  | cons ev rest ih =>
      rcases ev with ⟨d, b⟩
      cases b <;> simp [List.countP_cons] <;> omega

/-- C5 counterexample: after one successful call of 1 ms and one
failed call of 2 ms to `"local"`, the snapshot entry is
`{total:2, success:1, failed:1, avg_latency_ms:2}` — the stored
average is `Math.round(1.5) = 2`, which is *not* the arithmetic mean
`3/2` the claim requires. -/
theorem avg_latency_is_rounded :
    (getTelemetry (recordAll "local" [(1, true), (2, false)])).lookup
      "local" = some ⟨2, 1, 1, 2⟩ ∧
    ((2 : ℚ) ≠ ((1 : ℚ) + 2) / 2) := by
  constructor
  · decide
  · norm_num

/-- C5 (amended): after recording N successful and M failed calls for
an endpoint (in any order, with any durations), the snapshot entry is
`{total: N+M, success: N, failed: M}` and its average latency is the
arithmetic mean of the last `min(100, N+M)` recorded durations,
rounded half-up to an integer (JS `Math.round`). -/
theorem telemetry_snapshot_entry (e : String) (evs : List (Nat × Bool))
    (N M : Nat) (hne : evs ≠ [])
    (hN : evs.countP (fun ev => ev.2) = N)
    (hM : evs.countP (fun ev => !ev.2) = M) :
    (getTelemetry (recordAll e evs)).lookup e =
      some ⟨N + M, N, M,
            jsRound (lastWindow (evs.map Prod.fst)).sum
                    (lastWindow (evs.map Prod.fst)).length⟩ := by
  rcases evs with _ | ⟨ev, rest⟩
  · exact absurd rfl hne
  have htotal := countP_partition (ev :: rest)
  rw [hN, hM] at htotal
  rw [recordAll_nonempty, foldl_bumpStats]
  have hwin : (ev :: rest).foldl (fun a x => pushLatency x.1 a) [] =
      lastWindow ((ev :: rest).map Prod.fst) := by
    rw [← List.foldl_map Prod.fst (fun a d => pushLatency d a)]
    exact foldl_pushLatency_lastWindow _
  rw [hwin]
  have hlen : 0 < (lastWindow ((ev :: rest).map Prod.fst)).length := by
    unfold lastWindow MAX_LATENCY_SAMPLES
    rw [List.length_drop]
    simp only [List.length_map, List.length_cons]
    omega
  simp only [getTelemetry, List.map_cons, List.map_nil, List.lookup,
    beq_self_eq_true, Option.getD_some, List.length_cons]
  simp only [List.map_cons] at hlen
  rw [if_pos hlen]
  simp only [List.length_cons] at htotal
  simp only [Option.some.injEq, EndpointSnapshot.mk.injEq]
  refine ⟨by omega, by omega, by omega, trivial⟩

/-- Witness for C5 (amended): three calls (two successes, one
failure) with durations 10, 20, 30 give `{total:3, success:2,
failed:1}` and average `Math.round(60/3) = 20`. -/
theorem telemetry_snapshot_entry_witness :
    (getTelemetry (recordAll "local" [(10, true), (20, false),
        (30, true)])).lookup "local" =
      some ⟨3, 2, 1,
            jsRound (lastWindow ([(10, true), (20, false),
                (30, true)].map Prod.fst)).sum
              (lastWindow ([(10, true), (20, false),
                (30, true)].map Prod.fst)).length⟩ ∧
    jsRound (lastWindow ([(10, true), (20, false),
        (30, true)].map Prod.fst)).sum
      (lastWindow ([(10, true), (20, false),
        (30, true)].map Prod.fst)).length = 20 :=
  ⟨telemetry_snapshot_entry "local" [(10, true), (20, false), (30, true)]
    2 1 (by decide) (by decide) (by decide),
   by decide⟩

/-- One window push never grows the window beyond the bound. -/
theorem pushLatency_length_le (d : Nat) (w : List Nat)
    (h : w.length ≤ MAX_LATENCY_SAMPLES) :
    (pushLatency d w).length ≤ MAX_LATENCY_SAMPLES := by
  unfold pushLatency
  dsimp only
  split
  · rw [List.length_tail]
    simp only [List.length_append, List.length_singleton]
    omega
  · next h2 =>
      exact Nat.not_lt.mp h2

/-- `lookup` finds only stored pairs. -/
theorem mem_of_lookup {α : Type} (l : List (String × α)) (k : String)
    (v : α) (h : l.lookup k = some v) : (k, v) ∈ l := by
  induction l with
  | nil => cases h
  | cons q rest ih =>
      rcases q with ⟨k1, v1⟩
      have hdef : List.lookup k ((k1, v1) :: rest) =
          match k == k1 with
          | true => some v1
          | false => List.lookup k rest := rfl
      rw [hdef] at h
      cases hbeq : k == k1 with
      | true =>
          rw [hbeq] at h
          cases h
          have hk : k = k1 := eq_of_beq hbeq
          subst hk
          exact List.mem_cons_self _ _
      | false =>
          rw [hbeq] at h
          exact List.mem_cons_of_mem _ (ih h)

/-- A `trackCall` preserves the window bound on every endpoint. -/
theorem trackCall_window_bound (tel : Telemetry) (e : String) (d : Nat)
    (b : Bool)
    (h : ∀ p ∈ tel.latencies, p.2.length ≤ MAX_LATENCY_SAMPLES) :
    ∀ p ∈ (trackCall tel e d b).latencies,
      p.2.length ≤ MAX_LATENCY_SAMPLES := by
  intro p hp
  unfold trackCall updateAssoc at hp
  split at hp
  · rcases List.mem_map.mp hp with ⟨q, hq, rfl⟩
    split
    · exact pushLatency_length_le d q.2 (h q hq)
    · exact h q hq
  · rcases List.mem_map.mp hp with ⟨q, hq, rfl⟩
    rcases List.mem_append.mp hq with hq2 | hq2
    · split
      · exact pushLatency_length_le d q.2 (h q hq2)
      · exact h q hq2
    · rcases List.mem_singleton.mp hq2 with rfl
      simp [pushLatency, MAX_LATENCY_SAMPLES]

/-- Recording any sequence of calls preserves the window bound. -/
theorem foldl_trackCall_window_bound (evs : List (String × Nat × Bool))
    (t : Telemetry)
    (h : ∀ p ∈ t.latencies, p.2.length ≤ MAX_LATENCY_SAMPLES) :
    ∀ p ∈ (evs.foldl (fun t ev => trackCall t ev.1 ev.2.1 ev.2.2)
        t).latencies,
      p.2.length ≤ MAX_LATENCY_SAMPLES := by
  induction evs generalizing t with
  | nil => exact h
  | cons ev rest ih =>
      rw [List.foldl_cons]
      exact ih _ (trackCall_window_bound t ev.1 ev.2.1 ev.2.2 h)

/-- C6: after any sequence of recorded calls the latency window of
every endpoint holds at most `MAX_LATENCY_SAMPLES = 100` entries; and
after 150 recorded calls to one endpoint, its window is exactly the
last 100 durations in arrival order (samples 50..149, strict FIFO
eviction). -/
theorem latency_window_bounded_fifo :
    (∀ (evs : List (String × Nat × Bool)) (e : String) (w : List Nat),
      (runCalls evs).latencies.lookup e = some w →
      w.length ≤ MAX_LATENCY_SAMPLES) ∧
    (∀ (e : String) (evs : List (Nat × Bool)), evs.length = 150 →
      (recordAll e evs).latencies.lookup e =
        some ((evs.map Prod.fst).drop 50) ∧
      ((evs.map Prod.fst).drop 50).length = 100) := by
  constructor
  · intro evs e w hw
    exact foldl_trackCall_window_bound evs emptyTelemetry
      (by intro p hp; cases hp) (e, w) (mem_of_lookup _ _ _ hw)
  · intro e evs hlen
    rcases evs with _ | ⟨ev, rest⟩
    · cases hlen
    have hwin : (ev :: rest).foldl (fun a x => pushLatency x.1 a) [] =
        lastWindow ((ev :: rest).map Prod.fst) := by
      rw [← List.foldl_map Prod.fst (fun a d => pushLatency d a)]
      exact foldl_pushLatency_lastWindow _
    have hmap : ((ev :: rest).map Prod.fst).length = 150 := by
      rw [List.length_map]
      exact hlen
    have hdrop : lastWindow ((ev :: rest).map Prod.fst) =
        ((ev :: rest).map Prod.fst).drop 50 := by
      unfold lastWindow MAX_LATENCY_SAMPLES
      rw [hmap]
    rw [recordAll_nonempty, hwin, hdrop]
    refine ⟨by simp [List.lookup], ?_⟩
    rw [List.length_drop, hmap]

/-- Witness for C6 at concrete inputs: 150 identical recorded calls,
and a single-call run. -/
theorem latency_window_bounded_fifo_witness :
    (recordAll "x" (List.replicate 150 (7, true))).latencies.lookup "x" =
      some (((List.replicate 150 (7, true)).map Prod.fst).drop 50) ∧
    (((List.replicate 150 (7, true)).map Prod.fst).drop 50).length =
      100 ∧
    ([5] : List Nat).length ≤ MAX_LATENCY_SAMPLES :=
  ⟨(latency_window_bounded_fifo.2 "x" _ (by simp)).1,
   (latency_window_bounded_fifo.2 "x" _ (by simp)).2,
   latency_window_bounded_fifo.1 [("x", 5, true)] "x" [5] (by decide)⟩

/-- Iterated `getTelemetry` messages: thread the telemetry state
through `n` consecutive listener calls. -/
def getsIter (settings : Settings) (fo : FetchOutcome) (elapsed : Nat) :
    Nat → Telemetry → Telemetry
  | 0, tel => tel
  | n + 1, tel =>
      getsIter settings fo elapsed n
        (onMessage .getTelemetryMsg settings fo tel elapsed).2

/-- C10: reading the telemetry snapshot neither mutates the telemetry
state nor varies across repetitions: after any number of consecutive
`getTelemetry` messages the state is unchanged and the next snapshot
response is identical to the first. -/
theorem getTelemetry_idempotent (settings : Settings) (fo : FetchOutcome)
    (elapsed : Nat) (tel : Telemetry) (n : Nat) :
    getsIter settings fo elapsed n tel = tel ∧
    (onMessage .getTelemetryMsg settings fo
      (getsIter settings fo elapsed n tel) elapsed).1 =
      .telemetrySnapshot (getTelemetry tel) := by
  induction n with
  | zero => exact ⟨rfl, rfl⟩
  | succ n ih => exact ih

end Sidehelp
